import Mathlib

/-!
Verification of the credential-provisioning core of `install.js`
(AI Coding Assistant installation wizard).

The JavaScript source is shallowly embedded: optional / possibly-undefined
string fields become `Option String`, JavaScript truthiness of strings
(`undefined` and `""` are falsy) is made explicit, the two
`crypto.randomBytes` entropy draws are injected as explicit byte streams
(`Nat → Nat`, reduced mod 256), the Express request handler becomes a pure
step function on a promise slot, and `fs.writeFileSync` becomes a whole-file
replacement on an `Option String` file state.
-/

namespace Install

/-- JavaScript truthiness of a possibly-undefined string value:
`undefined` and the empty string are falsy, every other string is truthy. -/
def jsTruthy : Option String → Bool
  | none => false
  | some s => !s.isEmpty

/-- JavaScript `a || d` where `a` is a possibly-undefined string and the
fallback `d` is a plain string: returns the string of `a` when truthy,
otherwise `d`. -/
def jsOrStr (a : Option String) (d : String) : String :=
  match a with
  | some s => if s.isEmpty then d else s
  | none => d

/-- JavaScript `a || b` where both operands are possibly-undefined strings:
returns `a` when truthy, otherwise `b` (which may itself be undefined). -/
def jsOrOpt (a b : Option String) : Option String :=
  if jsTruthy a then a else b

/-- Template-literal stringification of a possibly-undefined string:
`undefined` renders as the text "undefined". -/
def jsStr : Option String → String
  | none => "undefined"
  | some s => s

/-- The lowercase hexadecimal digits, as used by Node's
`Buffer.toString('hex')`. -/
def hexDigits : List Char := "0123456789abcdef".data

/-- The hex digit character for a nibble value (values ≥ 16 never arise at
call sites; the default is immaterial). -/
def hexDigitChar (n : Nat) : Char :=
  hexDigits.getD n '0'

/-- The two lowercase hex characters of one byte, exactly as
`Buffer.toString('hex')` renders each byte: high nibble then low nibble,
always two characters. -/
def byteToHex (b : Nat) : List Char :=
  [hexDigitChar (b / 16 % 16), hexDigitChar (b % 16)]

/-- Hex rendering of a byte list: `Buffer.toString('hex')`. -/
def bytesToHex (bs : List Nat) : String :=
  String.mk ((bs.map byteToHex).flatten)

/-- `crypto.randomBytes(n)` with the kernel's entropy injected as a stream
`rnd : Nat → Nat`: the `n` bytes produced by one call, each reduced mod 256
so they are genuine byte values. -/
def randomBytes (rnd : Nat → Nat) (n : Nat) : List Nat :=
  (List.range n).map (fun i => rnd i % 256)

/-- `generateRandomSecret(length = 32)` from install.js:
`crypto.randomBytes(length).toString('hex')`. The entropy of the call is the
injected stream `rnd`. -/
def generateRandomSecret (rnd : Nat → Nat) (length : Nat := 32) : String :=
  bytesToHex (randomBytes rnd length)

/-- The `APP_NAME_PREFIX` constant of install.js. -/
def appNamePrefix : String := "AI-Coding-Assistant"

/-- The `DEFAULT_PORT` constant of install.js. -/
def defaultPort : Nat := 3000

/-- The configuration record assembled from the interactive prompts and
passed to `generateGitHubAppManifest` / `getWebhookUrl`. Every field is a
possibly-undefined string, matching the untyped JavaScript object. -/
structure RegistrationConfig where
  appNameSuffix : Option String := none
  appUrl : Option String := none
  host : Option String := none
  baseUrl : Option String := none
  port : Option String := none
  webhookUrl : Option String := none
  redirectUrl : Option String := none
deriving Repr, DecidableEq

/-- The `hook_attributes` object of the generated manifest. -/
structure HookAttributes where
  url : Option String
  active : Bool
  secret : String
deriving Repr, DecidableEq

/-- The `default_permissions` object of the generated manifest. -/
structure DefaultPermissions where
  issues : String
  pull_requests : String
  contents : String
  metadata : String
deriving Repr, DecidableEq

/-- The GitHub App manifest object built by `generateGitHubAppManifest`. -/
structure AppManifest where
  name : String
  url : String
  hook_attributes : HookAttributes
  redirect_url : Option String
  public : Bool
  default_permissions : DefaultPermissions
  default_events : List String
  description : String
deriving Repr, DecidableEq

/-- `generateGitHubAppManifest(config)` from install.js. The two
`crypto` entropy draws of the call — `generateRandomSecret(16)` for the
webhook secret and `crypto.randomBytes(4)` for the name fallback — are
injected as the streams `rndSecret` and `rndName`. Returns the pair
`(manifest, webhookSecret)`. -/
def generateGitHubAppManifest (config : RegistrationConfig)
    (rndSecret rndName : Nat → Nat) : AppManifest × String :=
  let webhookSecret := generateRandomSecret rndSecret 16
  let manifest : AppManifest :=
    { name := appNamePrefix ++ "-" ++
        jsOrStr config.appNameSuffix (bytesToHex (randomBytes rndName 4))
      url := jsOrStr config.appUrl "https://github.com/your-username/ai-coding-assistant"
      hook_attributes :=
        { url := config.webhookUrl
          active := true
          secret := webhookSecret }
      redirect_url := jsOrOpt config.redirectUrl config.webhookUrl
      public := false
      default_permissions :=
        { issues := "write"
          pull_requests := "write"
          contents := "write"
          metadata := "read" }
      default_events :=
        ["issues", "issue_comment", "pull_request", "pull_request_review",
         "pull_request_review_comment"]
      description := "AI-powered assistant that automates software development workflow from GitHub issue to implementation." }
  (manifest, webhookSecret)

/-- `getWebhookUrl(config)` from install.js:
`(config.baseUrl || config.host || 'http://localhost') + ':' + (config.port || DEFAULT_PORT) + '/api/webhook'`. -/
def getWebhookUrl (config : RegistrationConfig) : String :=
  let baseUrl := jsOrStr config.baseUrl (jsOrStr config.host "http://localhost")
  let port := jsOrStr config.port (toString defaultPort)
  baseUrl ++ ":" ++ port ++ "/api/webhook"

/-- An inbound HTTP request as seen by the Express app of
`startLocalServer`: the request path and the `code` and `installation_id`
query parameters (absent parameters are `undefined`). -/
structure HttpRequest where
  path : String
  query_code : Option String
  query_installation_id : Option String
deriving Repr, DecidableEq

/-- An HTTP response: status and body. `res.send(html)` in Express answers
with the default status 200 and the given body. -/
structure HttpResponse where
  status : Nat
  body : String
deriving Repr, DecidableEq

/-- The value the callback handler resolves the promise with:
`{ code, installationId: installation_id }`, each field possibly undefined
when the query parameter is absent. -/
structure CallbackResult where
  code : Option String
  installationId : Option String
deriving Repr, DecidableEq

/-- The part of the handler's HTML template literal before the
interpolated `installation_id`. -/
def htmlBeforeInstallationId : String :=
  "\n        <html>\n          <body style=\"font-family: Arial, sans-serif; max-width: 600px; margin: 0 auto; padding: 20px;\">\n            <h2>GitHub App Successfully Created!</h2>\n            <p>You can now close this window and return to the installer.</p>\n            <div>\n              <strong>Installation ID:</strong> "

/-- The part of the handler's HTML template literal between the
interpolated `installation_id` and the interpolated `code`. -/
def htmlBetween : String :=
  "<br>\n              <strong>Code:</strong> "

/-- The part of the handler's HTML template literal after the
interpolated `code`. -/
def htmlAfterCode : String :=
  "\n            </div>\n          </body>\n        </html>\n      "

/-- The body sent by the `/github/callback` handler: the template literal
of install.js with the request's `installation_id` and `code` query values
interpolated (an absent value renders as "undefined"). -/
def confirmationHtml (installation_id code : Option String) : String :=
  htmlBeforeInstallationId ++ jsStr installation_id ++ htmlBetween ++
    jsStr code ++ htmlAfterCode

/-- The response the callback handler sends for a request:
`res.send(...)`, status 200 with the interpolated confirmation page. -/
def callbackResponse (req : HttpRequest) : HttpResponse :=
  { status := 200
    body := confirmationHtml req.query_installation_id req.query_code }

/-- Express's default response for a path with no registered route
(the app registers only `GET /github/callback`). -/
def notFoundResponse : HttpResponse :=
  { status := 404, body := "Cannot GET" }

/-- JavaScript promise resolution: calling `resolve` on an already-resolved
promise is a no-op, so a filled slot never changes. -/
def promiseResolve (slot : Option CallbackResult) (r : CallbackResult) :
    Option CallbackResult :=
  match slot with
  | some v => some v
  | none => some r

/-- One inbound request processed by the Express app of `startLocalServer`:
a request to `/github/callback` is answered with the confirmation page and
`resolve({ code, installationId: installation_id })` is called on the
promise; any other path has no route and gets Express's 404. Returns the
promise slot after the request together with the response sent. -/
def serverStep (slot : Option CallbackResult) (req : HttpRequest) :
    Option CallbackResult × HttpResponse :=
  if req.path == "/github/callback" then
    (promiseResolve slot { code := req.query_code
                           installationId := req.query_installation_id },
     callbackResponse req)
  else
    (slot, notFoundResponse)

/-- The Express app handling a sequence of inbound requests in arrival
order, threading the promise slot: returns the final slot and the list of
responses sent. -/
def processRequests : Option CallbackResult → List HttpRequest →
    Option CallbackResult × List HttpResponse
  | slot, [] => (slot, [])
  | slot, req :: rest =>
    let step := serverStep slot req
    let tail := processRequests step.1 rest
    (tail.1, step.2 :: tail.2)

/-- The observable outcome of one `startLocalServer` ceremony: the promise
slot, the responses sent, and whether the server is still listening (port
still bound) after all requests were handled. -/
structure ServerRun where
  slot : Option CallbackResult
  responses : List HttpResponse
  listening : Bool
deriving Repr, DecidableEq

/-- `startLocalServer(port)` from install.js, run over the sequence of
inbound requests of the ceremony. The server starts listening
(`app.listen(port)`), handles each request, and — as written in the
source — is never closed: `server.close()` is not called anywhere in
install.js, and the `server` handle exists only as the (discarded) return
value of the Promise executor, so no step of the program can set
`listening` back to `false`. -/
def startLocalServer (reqs : List HttpRequest) : ServerRun :=
  let run := processRequests none reqs
  { slot := run.1, responses := run.2, listening := true }

/-- `saveEnvironmentVariables(config)`'s serialization of the configuration
object: `Object.entries(config).map(([key, value]) => key + '=' + value).join('\n')`.
The object's entries are modelled as an association list in insertion
order. -/
def envContent (config : List (String × String)) : String :=
  String.intercalate "\n" (config.map (fun p => p.1 ++ "=" ++ p.2))

/-- `fs.writeFileSync(path, content)` at a fixed path: a single whole-file
replacement of the file state (`none` = file absent), never an append. -/
def writeFileSync (fileState : Option String) (content : String) :
    Option String :=
  let _ := fileState
  some content

/-- `saveEnvironmentVariables(config)` from install.js: serialize the
mapping and overwrite the `.env` file. -/
def saveEnvironmentVariables (fileState : Option String)
    (config : List (String × String)) : Option String :=
  writeFileSync fileState (envContent config)

/-- Assignment `obj[key] = value` on a JavaScript object modelled as an
insertion-ordered association list: an existing key keeps its position and
gets the new value, a new key is appended at the end. -/
def objSet (obj : List (String × String)) (key value : String) :
    List (String × String) :=
  if obj.any (fun p => p.1 == key) then
    obj.map (fun p => if p.1 == key then (key, value) else p)
  else
    obj ++ [(key, value)]

/-- The configuration updates of the app-registration branch of
`runInstallation` (install.js lines 258–292): one call to
`generateGitHubAppManifest`, `config.WEBHOOK_SECRET = webhookSecret` from
that single call, then — after the callback resolves — the placeholder App
ID, the callback's installation id, and the placeholder private key.
`obj` is the configuration object as it stands when the branch is entered;
`cb` is the resolved callback result. -/
def appRegistrationBranch (obj : List (String × String))
    (config : RegistrationConfig) (rndSecret rndName : Nat → Nat)
    (cb : CallbackResult) : List (String × String) :=
  let build := generateGitHubAppManifest config rndSecret rndName
  let obj := objSet obj "WEBHOOK_SECRET" build.2
  let obj := objSet obj "GITHUB_APP_ID" "GET_FROM_GITHUB_APP_SETTINGS"
  let obj := objSet obj "GITHUB_APP_INSTALLATION_ID" (jsStr cb.installationId)
  let obj := objSet obj "GITHUB_PRIVATE_KEY" "DOWNLOAD_FROM_GITHUB_APP_SETTINGS"
  obj

/-! ### Helper lemmas -/

theorem hexDigitChar_mem (n : Nat) : hexDigitChar n ∈ hexDigits := by
  unfold hexDigitChar
  rcases Nat.lt_or_ge n hexDigits.length with h | h
  · rw [List.getD_eq_getElem _ _ h]
    exact List.getElem_mem h
  · rw [List.getD_eq_default _ _ h]
    decide

theorem bytesToHex_length (bs : List Nat) :
    (bytesToHex bs).length = 2 * bs.length := by
  induction bs with
  | nil => rfl
  | cons b t ih =>
    simp only [bytesToHex, String.length, List.map_cons, List.flatten_cons,
      List.length_append] at *
    simp only [byteToHex, List.length_cons, List.length_nil]
    omega

theorem bytesToHex_chars (bs : List Nat) :
    ∀ c ∈ (bytesToHex bs).data, c ∈ hexDigits := by
  intro c hc
  have hc' : c ∈ (bs.map byteToHex).flatten := hc
  rcases List.mem_flatten.mp hc' with ⟨l, hl, hcl⟩
  rcases List.mem_map.mp hl with ⟨b, _, rfl⟩
  simp only [byteToHex, List.mem_cons, List.not_mem_nil, or_false] at hcl
  rcases hcl with rfl | rfl <;> exact hexDigitChar_mem _

theorem lookup_map_set (obj : List (String × String)) (k v : String)
    (h : obj.any (fun p => p.1 == k) = true) :
    List.lookup k (obj.map (fun p => if p.1 == k then (k, v) else p)) =
      some v := by
  induction obj with
  | nil => simp at h
  | cons p t ih =>
    rcases p with ⟨pk, pv⟩
    by_cases hp : pk = k
    · subst hp
      simp [List.lookup_cons]
    · have hpk : (pk == k) = false := by simpa using hp
      have hkp : (k == pk) = false := by simpa using fun e => hp e.symm
      simp only [List.any_cons, hpk, Bool.false_or] at h
      simp only [List.map_cons, hpk, Bool.false_eq_true, if_false,
        List.lookup_cons, hkp]
      exact ih h

theorem lookup_append_new (obj : List (String × String)) (k v : String)
    (h : List.lookup k obj = none) :
    List.lookup k (obj ++ [(k, v)]) = some v := by
  induction obj with
  | nil => simp [List.lookup_cons]
  | cons p t ih =>
    rcases p with ⟨pk, pv⟩
    by_cases hk : k = pk
    · simp [List.lookup_cons, hk] at h
    · have hkp : (k == pk) = false := by simpa using hk
      simp only [List.lookup_cons, hkp, Bool.false_eq_true, if_false] at h
      simpa [List.lookup_cons, hkp] using ih h

theorem not_any_lookup_none (obj : List (String × String)) (k : String)
    (h : obj.any (fun p => p.1 == k) = false) :
    List.lookup k obj = none := by
  induction obj with
  | nil => rfl
  | cons p t ih =>
    rcases p with ⟨pk, pv⟩
    simp only [List.any_cons, Bool.or_eq_false_iff] at h
    have hkp : (k == pk) = false := by
      have hne : ¬pk = k := by simpa using h.1
      simpa using fun e => hne e.symm
    simp only [List.lookup_cons, hkp, Bool.false_eq_true, if_false]
    exact ih h.2

theorem lookup_objSet_self (obj : List (String × String)) (k v : String) :
    List.lookup k (objSet obj k v) = some v := by
  unfold objSet
  by_cases h : obj.any (fun p => p.1 == k) = true
  · rw [if_pos h]
    exact lookup_map_set obj k v h
  · rw [if_neg h]
    exact lookup_append_new obj k v
      (not_any_lookup_none obj k
        (by simp only [Bool.not_eq_true] at h; exact h))

theorem lookup_map_other (obj : List (String × String)) (k key v : String)
    (h : k ≠ key) :
    List.lookup k (obj.map (fun p => if p.1 == key then (key, v) else p)) =
      List.lookup k obj := by
  induction obj with
  | nil => rfl
  | cons p t ih =>
    rcases p with ⟨pk, pv⟩
    by_cases hp : pk = key
    · subst hp
      have hkp : (k == pk) = false := by simpa using h
      simpa [List.lookup_cons, hkp] using ih
    · have hpk : (pk == key) = false := by simpa using hp
      simp only [List.map_cons, hpk, Bool.false_eq_true, if_false,
        List.lookup_cons]
      cases hkp : k == pk
      · simpa using ih
      · rfl

theorem lookup_append_other (obj : List (String × String)) (k key v : String)
    (h : k ≠ key) :
    List.lookup k (obj ++ [(key, v)]) = List.lookup k obj := by
  have hk : (k == key) = false := by simpa using h
  induction obj with
  | nil => simp [List.lookup_cons, hk]
  | cons p t ih =>
    rcases p with ⟨pk, pv⟩
    simp only [List.cons_append, List.lookup_cons]
    cases hkp : k == pk
    · simpa using ih
    · rfl

theorem lookup_objSet_ne (obj : List (String × String)) (k key v : String)
    (h : k ≠ key) :
    List.lookup k (objSet obj key v) = List.lookup k obj := by
  unfold objSet
  by_cases ha : obj.any (fun p => p.1 == key) = true
  · rw [if_pos ha]
    exact lookup_map_other obj k key v h
  · rw [if_neg ha]
    exact lookup_append_other obj k key v h

theorem processRequests_resolved (v : CallbackResult)
    (reqs : List HttpRequest) :
    (processRequests (some v) reqs).1 = some v := by
  induction reqs with
  | nil => rfl
  | cons req rest ih =>
    by_cases hpath : req.path == "/github/callback" <;>
      simp [processRequests, serverStep, promiseResolve, hpath, ih]

/-! ### Claim theorems -/

/-- C1: for every RegistrationConfig, `generateGitHubAppManifest` returns a
pair `(manifest, webhookSecret)` with `manifest.hook_attributes.secret`
equal to `webhookSecret` exactly, and the app-registration branch stores
that same secret from the single build call under `WEBHOOK_SECRET` in the
final configuration — the manifest's embedded secret and the written
secret never diverge. -/
theorem manifest_secret_never_diverges (obj : List (String × String))
    (config : RegistrationConfig) (rndSecret rndName : Nat → Nat)
    (cb : CallbackResult) :
    (generateGitHubAppManifest config rndSecret rndName).1.hook_attributes.secret =
      (generateGitHubAppManifest config rndSecret rndName).2 ∧
    List.lookup "WEBHOOK_SECRET"
        (appRegistrationBranch obj config rndSecret rndName cb) =
      some ((generateGitHubAppManifest config rndSecret rndName).2) := by
  refine ⟨rfl, ?_⟩
  unfold appRegistrationBranch
  rw [lookup_objSet_ne _ _ _ _ (by decide),
    lookup_objSet_ne _ _ _ _ (by decide),
    lookup_objSet_ne _ _ _ _ (by decide),
    lookup_objSet_self]

/-- C2: the promise of `startLocalServer` resolves exactly once per
ceremony: when several requests reach the callback route, the resolved
`CallbackResult` carries the `code` and `installation_id` query values of
the first request, and later requests never change the resolved value. -/
theorem startLocalServer_first_request_wins (req : HttpRequest)
    (rest : List HttpRequest) (h : req.path = "/github/callback") :
    (startLocalServer (req :: rest)).slot =
      some { code := req.query_code
             installationId := req.query_installation_id } := by
  have hb : (req.path == "/github/callback") = true := by simp [h]
  simp [startLocalServer, processRequests, serverStep, hb, promiseResolve,
    processRequests_resolved]

/-- Witness for C2: two rapid requests to the callback route yield exactly
the first request's query values. -/
theorem startLocalServer_first_request_wins_witness :
    (startLocalServer
        [{ path := "/github/callback", query_code := some "abc123",
           query_installation_id := some "999" },
         { path := "/github/callback", query_code := some "zzz",
           query_installation_id := some "111" }]).slot =
      some { code := some "abc123", installationId := some "999" } :=
  startLocalServer_first_request_wins _ _ rfl

/-- C3 (code bug): `startLocalServer` never releases the bound port. The
source opens the server with `app.listen(port)` but contains no
`server.close()` call — the `server` handle is only the discarded return
value of the Promise executor — so even after a successful ceremony the
promise is resolved while the server is still listening, for the rest of
the process lifetime. -/
theorem startLocalServer_port_never_released :
    (∀ reqs, (startLocalServer reqs).listening = true) ∧
    (startLocalServer
        [{ path := "/github/callback", query_code := some "abc123",
           query_installation_id := some "999" }]).slot =
      some { code := some "abc123", installationId := some "999" } ∧
    (startLocalServer
        [{ path := "/github/callback", query_code := some "abc123",
           query_installation_id := some "999" }]).listening = true :=
  ⟨fun _ => rfl, by decide, rfl⟩

set_option maxRecDepth 4000 in
/-- C4 counterexample: two requests to the callback route with different
`code` and `installation_id` query values receive different response
bodies, so the confirmation page is not a fixed static page independent of
the query. -/
theorem callback_response_not_static :
    (serverStep none
        { path := "/github/callback", query_code := some "abc123",
          query_installation_id := some "999" }).2 ≠
      (serverStep none
        { path := "/github/callback", query_code := none,
          query_installation_id := none }).2 := by
  decide

/-- C4 amended: every request to the callback route is answered with
status 200, and the response is determined by the request's
`installation_id` and `code` query values alone (the body is the
confirmation page with those two values interpolated) — but it is not
independent of them: requests with different query values can receive
different bodies. -/
theorem callback_response_status_and_body (slot slot' : Option CallbackResult)
    (req req' : HttpRequest) (h : req.path = "/github/callback")
    (h' : req'.path = "/github/callback") :
    (serverStep slot req).2.status = 200 ∧
    (serverStep slot req).2.body =
      htmlBeforeInstallationId ++ jsStr req.query_installation_id ++
        htmlBetween ++ jsStr req.query_code ++ htmlAfterCode ∧
    (req.query_code = req'.query_code →
      req.query_installation_id = req'.query_installation_id →
      (serverStep slot req).2 = (serverStep slot' req').2) := by
  have hb : (req.path == "/github/callback") = true := by simp [h]
  have hb' : (req'.path == "/github/callback") = true := by simp [h']
  refine ⟨?_, ?_, ?_⟩
  · simp [serverStep, hb, callbackResponse]
  · simp [serverStep, hb, callbackResponse, confirmationHtml]
  · intro hc hi
    simp [serverStep, hb, hb', callbackResponse, confirmationHtml, hc, hi]

/-- Witness for the amended C4 at a concrete request: status 200, the
interpolated body, and independence from the promise slot. -/
theorem callback_response_status_and_body_witness :
    (serverStep none
        { path := "/github/callback", query_code := some "abc123",
          query_installation_id := some "999" }).2.status = 200 ∧
    (serverStep none
        { path := "/github/callback", query_code := some "abc123",
          query_installation_id := some "999" }).2.body =
      htmlBeforeInstallationId ++ jsStr (some "999") ++ htmlBetween ++
        jsStr (some "abc123") ++ htmlAfterCode ∧
    (serverStep none
        { path := "/github/callback", query_code := some "abc123",
          query_installation_id := some "999" }).2 =
      (serverStep (some { code := none, installationId := none })
        { path := "/github/callback", query_code := some "abc123",
          query_installation_id := some "999" }).2 := by
  obtain ⟨h1, h2, h3⟩ := callback_response_status_and_body none
    (some { code := none, installationId := none })
    { path := "/github/callback", query_code := some "abc123",
      query_installation_id := some "999" }
    { path := "/github/callback", query_code := some "abc123",
      query_installation_id := some "999" } rfl rfl
  exact ⟨h1, h2, h3 rfl rfl⟩

/-- C5: every request to the callback route — including one whose query
string lacks `code` or `installation_id` or both — resolves the promise
with whatever fields are present (missing fields are undefined), rather
than erroring or leaving the promise pending. -/
theorem callback_resolves_with_present_fields (req : HttpRequest)
    (h : req.path = "/github/callback") :
    (processRequests none [req]).1 =
      some { code := req.query_code
             installationId := req.query_installation_id } := by
  have hb : (req.path == "/github/callback") = true := by simp [h]
  simp [processRequests, serverStep, hb, promiseResolve]

/-- Witness for C5: a callback request with neither query parameter still
resolves the promise, with both fields absent. -/
theorem callback_resolves_with_present_fields_witness :
    (processRequests none
        [{ path := "/github/callback", query_code := none,
           query_installation_id := none }]).1 =
      some { code := none, installationId := none } :=
  callback_resolves_with_present_fields _ rfl

/-- C6: with a nonempty host and port set and `baseUrl` unset (nothing in
the program ever sets `baseUrl`), the derived webhook URL is
`host:port/api/webhook`. -/
theorem getWebhookUrl_derived (config : RegistrationConfig) (h p : String)
    (hBase : config.baseUrl = none) (hHost : config.host = some h)
    (hh : h ≠ "") (hPort : config.port = some p) (hp : p ≠ "") :
    getWebhookUrl config = h ++ ":" ++ p ++ "/api/webhook" := by
  unfold getWebhookUrl
  rw [hBase, hHost, hPort]
  simp [jsOrStr, String.isEmpty_iff, hh, hp]

/-- Witness for C6: host `http://localhost` and port `4000` derive
`http://localhost:4000/api/webhook`. -/
theorem getWebhookUrl_derived_witness :
    getWebhookUrl { host := some "http://localhost", port := some "4000" } =
      "http://localhost:4000/api/webhook" := by
  rw [getWebhookUrl_derived _ "http://localhost" "4000" rfl rfl (by decide)
    rfl (by decide)]
  decide

/-- C7: the manifest name is the prefix `AI-Coding-Assistant` joined by
`-` to the supplied suffix; with no suffix (absent or empty), the appended
part is instead the 4 random bytes of the name draw rendered as hex — 8
lowercase hex characters. -/
theorem manifest_name_format (config : RegistrationConfig)
    (rndSecret rndName : Nat → Nat) :
    (∀ s, config.appNameSuffix = some s → s ≠ "" →
      (generateGitHubAppManifest config rndSecret rndName).1.name =
        appNamePrefix ++ "-" ++ s) ∧
    (jsTruthy config.appNameSuffix = false →
      ∃ hex, (generateGitHubAppManifest config rndSecret rndName).1.name =
          appNamePrefix ++ "-" ++ hex ∧
        hex.length = 8 ∧ ∀ c ∈ hex.data, c ∈ hexDigits) := by
  constructor
  · intro s hs hne
    unfold generateGitHubAppManifest
    simp [jsOrStr, hs, String.isEmpty_iff, hne]
  · intro hfalse
    refine ⟨bytesToHex (randomBytes rndName 4), ?_, ?_, bytesToHex_chars _⟩
    · unfold generateGitHubAppManifest
      cases hsuf : config.appNameSuffix with
      | none => simp [jsOrStr]
      | some s =>
        have hse : s.isEmpty = true := by
          rw [hsuf] at hfalse
          simpa [jsTruthy] using hfalse
        simp [jsOrStr, hse]
    · rw [bytesToHex_length]
      simp [randomBytes]

/-- Witness for C7: a supplied suffix is appended verbatim; with no
suffix the name is the prefix plus 8 lowercase hex characters. -/
theorem manifest_name_format_witness :
    ((generateGitHubAppManifest { appNameSuffix := some "team" }
        (fun _ => 0) (fun _ => 0)).1.name = appNamePrefix ++ "-" ++ "team") ∧
    (∃ hex, (generateGitHubAppManifest ({ } : RegistrationConfig)
        (fun _ => 0) (fun _ => 0)).1.name = appNamePrefix ++ "-" ++ hex ∧
      hex.length = 8 ∧ ∀ c ∈ hex.data, c ∈ hexDigits) :=
  ⟨(manifest_name_format _ _ _).1 "team" rfl (by decide),
   (manifest_name_format _ _ _).2 rfl⟩

/-- C8: `saveEnvironmentVariables` serializes the mapping as
newline-separated KEY=value lines in insertion order and fully replaces
any prior file content; writing `A=1` and then `A=2, B=3` at the same
path leaves exactly the lines `A=2` and `B=3`. -/
theorem saveEnvironmentVariables_overwrites (fileState : Option String) :
    (∀ config, saveEnvironmentVariables fileState config =
      some (String.intercalate "\n"
        (config.map (fun p => p.1 ++ "=" ++ p.2)))) ∧
    saveEnvironmentVariables
        (saveEnvironmentVariables fileState [("A", "1")])
        [("A", "2"), ("B", "3")] = some "A=2\nB=3" :=
  ⟨fun _ => rfl, rfl⟩

/-- C9: `generateRandomSecret` returns a hex string of exactly twice as
many characters as requested bytes. -/
theorem generateRandomSecret_length (rnd : Nat → Nat) (n : Nat)
    (_hn : 0 < n) :
    (generateRandomSecret rnd n).length = 2 * n := by
  unfold generateRandomSecret
  rw [bytesToHex_length]
  simp [randomBytes]

/-- Witness for C9 at length 16: a 32-character secret. -/
theorem generateRandomSecret_length_witness :
    0 < 16 ∧ (generateRandomSecret (fun i => i) 16).length = 2 * 16 :=
  ⟨by decide, generateRandomSecret_length (fun i => i) 16 (by decide)⟩

/-- C10: with no explicit `redirectUrl`, the manifest's `redirect_url`
equals the config's webhook URL — the same value placed in
`hook_attributes.url`; an explicit nonempty `redirectUrl` is used
verbatim. -/
theorem manifest_redirect_url (config : RegistrationConfig)
    (rndSecret rndName : Nat → Nat) :
    (jsTruthy config.redirectUrl = false →
      (generateGitHubAppManifest config rndSecret rndName).1.redirect_url =
        config.webhookUrl ∧
      (generateGitHubAppManifest config rndSecret rndName).1.redirect_url =
        (generateGitHubAppManifest config rndSecret rndName).1.hook_attributes.url) ∧
    (∀ r, config.redirectUrl = some r → r ≠ "" →
      (generateGitHubAppManifest config rndSecret rndName).1.redirect_url =
        some r) := by
  constructor
  · intro hfalse
    constructor <;>
      · unfold generateGitHubAppManifest
        simp [jsOrOpt, hfalse]
  · intro r hr hne
    unfold generateGitHubAppManifest
    simp [jsOrOpt, jsTruthy, String.isEmpty_iff, hr, hne]

/-- Witness for C10: an absent redirect URL falls back to the webhook
URL; an explicit one is used verbatim. -/
theorem manifest_redirect_url_witness :
    ((generateGitHubAppManifest
        { webhookUrl := some "http://localhost:3000/api/webhook" }
        (fun _ => 0) (fun _ => 0)).1.redirect_url =
      some "http://localhost:3000/api/webhook") ∧
    ((generateGitHubAppManifest
        { redirectUrl := some "https://example.org/done" }
        (fun _ => 0) (fun _ => 0)).1.redirect_url =
      some "https://example.org/done") :=
  ⟨((manifest_redirect_url
        { webhookUrl := some "http://localhost:3000/api/webhook" }
        (fun _ => 0) (fun _ => 0)).1 rfl).1,
   (manifest_redirect_url _ _ _).2 "https://example.org/done" rfl (by decide)⟩

end Install
